import Mathlib

/-!
Verification of the Signature Injection Engine (backend/server.js).

The backend's `SignatureInjectionEngine` class is shallowly embedded here:

* `normalizeCoordinates` — the percentage-to-point coordinate transform
  (rational arithmetic stands in for JS number arithmetic; the formulas
  involve only sums and products of the inputs).
* `parseBase64Image` — data-URI parsing; the base64 payload is kept as the
  raw payload string, since no claim inspects decoded bytes beyond whether
  the external embedder accepts them.
* `injectField` — per-field dispatch, producing the list of draw
  operations issued to the PDF page (or an error when an awaited
  library call throws).  The external `pdfDoc.embedPng` / `embedJpg`
  calls are modelled by predicates `pngOk`, `jpgOk` on the payload:
  `false` means the library throws on those bytes.
* `injectFields` / `stepField` — the whole-document orchestration:
  hash the input bytes, load pages, loop over the fields payload,
  re-serialize, hash the output, fire the audit sink.  The external
  collaborators (PDF load/save, SHA-256, the Mongo sink) are parameters;
  each is an arbitrary pure function, which is exactly what the code
  relies on.
* `logAuditEntry` — audit persistence with its internal try/catch.

Field values are `Option String`; JS truthiness of a value is
`none`/`""` falsy, everything else truthy, which matches every value
the engine receives (strings or null/undefined).
-/

namespace SigEngine

/-- One field placement as received in the JSON payload. -/
structure Field where
  ftype : String
  pageNumber : Option Int
  xPct : ℚ
  yPct : ℚ
  wPct : ℚ
  hPct : ℚ
  value : Option String
deriving Repr, DecidableEq

/-- The absolute coordinates returned by `normalizeCoordinates`. -/
structure Coords where
  x : ℚ
  y : ℚ
  width : ℚ
  height : ℚ
deriving Repr, DecidableEq

/-- JS truthiness for a field value: `null`/`undefined`/`""` are falsy. -/
def truthy : Option String → Bool
  | none => false
  | some s => s ≠ ""

/-- `normalizeCoordinates(field, pdfWidth, pdfHeight)` from server.js:
converts percentage coordinates into absolute PDF points, inverting the
Y axis for the bottom-left origin. -/
def normalizeCoordinates (field : Field) (pdfWidth pdfHeight : ℚ) : Coords :=
  { x := field.xPct * pdfWidth
  , y := (1 - field.yPct - field.hPct) * pdfHeight
  , width := field.wPct * pdfWidth
  , height := field.hPct * pdfHeight }

/-- Prefix test on character lists: `listStartsWith p s` holds when `s`
starts with `p` (JS `String.prototype.startsWith`). -/
def listStartsWith : List Char → List Char → Bool
  | [], _ => true
  | _ :: _, [] => false
  | p :: ps, c :: cs => if p = c then listStartsWith ps cs else false

/-- First occurrence of `sep` in a character list: the part before it and
the part after it, or `none` when `sep` does not occur. -/
def strBreak (sep : List Char) : List Char → Option (List Char × List Char)
  | [] => none
  | c :: cs =>
    if listStartsWith sep (c :: cs) then some ([], (c :: cs).drop sep.length)
    else
      match strBreak sep cs with
      | none => none
      | some (pre, post) => some (c :: pre, post)

/-- Fuelled splitting worker; the fuel bounds the number of separator
occurrences, so `length s` fuel is always enough for a non-empty `sep`. -/
def splitFuel (sep : List Char) : Nat → List Char → List (List Char)
  | 0, s => [s]
  | Nat.succ fuel, s =>
    match strBreak sep s with
    | none => [s]
    | some (pre, post) => pre :: splitFuel sep fuel post

/-- JS `s.split(sep)` for a non-empty separator. -/
def jsSplit (s sep : String) : List String :=
  (splitFuel sep.data s.data.length s.data).map (fun cs => String.mk cs)

/-- JS `s.startsWith(p)`. -/
def jsStartsWith (s p : String) : Bool :=
  listStartsWith p.data s.data

/-- `parseBase64Image(dataUrl)` from server.js.  Returns the base64
payload (left undecoded) and the declared mime, or `none` when the value
is falsy, does not start with `data:`, or does not split into exactly
two parts around `;base64,`. -/
def parseBase64Image (dataUrl : Option String) : Option (String × String) :=
  match dataUrl with
  | none => none
  | some s =>
    if s = "" then none
    else if jsStartsWith s "data:" = false then none
    else
      let parts := jsSplit s ";base64,"
      if parts.length ≠ 2 then none
      else
        let mime := (jsSplit (parts.headD "") ":").getD 1 ""
        some (parts.getD 1 "", mime)

/-- One drawing primitive issued to a PDF page. -/
inductive DrawOp where
  | rect (x y width height : ℚ)
  | image (data : String) (x y width height : ℚ)
  | text (s : String) (x y size : ℚ)
  | circle (x y size : ℚ)
deriving Repr, DecidableEq

/-- `injectField(pdfDoc, page, field, font)` from server.js, returning
the draw operations issued on the page, or an error when an embed call
throws.  `pngOk`/`jpgOk` model whether `pdfDoc.embedPng`/`embedJpg`
accept the payload bytes. -/
def injectField (pngOk jpgOk : String → Bool) (pdfWidth pdfHeight : ℚ)
    (field : Field) : Except String (List DrawOp) :=
  let pdfCoords := normalizeCoordinates field pdfWidth pdfHeight
  let boxOps : List DrawOp :=
    if field.ftype = "radio" then
      [DrawOp.rect pdfCoords.x pdfCoords.y pdfCoords.width pdfCoords.height]
    else []
  if field.ftype = "signature" ∨ field.ftype = "image" then
    match parseBase64Image field.value with
    | none => Except.ok boxOps
    | some (data, mime) =>
      if mime = "image/png" then
        if pngOk data then
          Except.ok (boxOps ++
            [DrawOp.image data pdfCoords.x pdfCoords.y pdfCoords.width pdfCoords.height])
        else Except.error "embedPng failed"
      else if mime = "image/jpeg" ∨ mime = "image/jpg" then
        if jpgOk data then
          Except.ok (boxOps ++
            [DrawOp.image data pdfCoords.x pdfCoords.y pdfCoords.width pdfCoords.height])
        else Except.error "embedJpg failed"
      else Except.ok boxOps
  else if field.ftype = "text" ∨ field.ftype = "date" then
    if truthy field.value then
      match field.value with
      | none => Except.ok boxOps
      | some v =>
        Except.ok (boxOps ++
          [DrawOp.text v (pdfCoords.x + 2) (pdfCoords.y + pdfCoords.height - 10 - 2) 10])
    else Except.ok boxOps
  else if field.ftype = "radio" then
    if truthy field.value then
      Except.ok (boxOps ++
        [DrawOp.circle (pdfCoords.x + pdfCoords.width / 2)
          (pdfCoords.y + pdfCoords.height / 2) (pdfCoords.width / 4)])
    else Except.ok boxOps
  else
    Except.ok boxOps

/-- One page of the loaded document: its actual point size and the draw
operations accumulated on it during the run. -/
structure Page where
  width : ℚ
  height : ℚ
  ops : List DrawOp
deriving Repr, DecidableEq

/-- The audit record assembled by `injectFields` and handed to the sink. -/
structure AuditRecord where
  pdfName : String
  originalHash : Nat
  signedHash : Nat
  fields : List Field
deriving Repr

/-- `logAuditEntry` from server.js: persists the record via the sink; a
sink failure is caught and only logged.  Returns the console line. -/
def logAuditEntry (sink : AuditRecord → Except String Unit)
    (rec : AuditRecord) : String :=
  match sink rec with
  | Except.ok _ => "[DB] Audit log saved for " ++ rec.pdfName
  | Except.error e => "[DB] Failed to save audit log: " ++ e

/-- One iteration of the `for (const field of fieldsPayload)` loop in
`injectFields`: resolve `field.pageNumber || 0`, skip when it is at or
beyond the page count, and otherwise draw on that page.  A negative
index passes the bound check, so `pages[pageNumber]` is `undefined` and
the subsequent `page.getSize()` throws. -/
def stepField (pngOk jpgOk : String → Bool) (field : Field)
    (pages : List Page) : Except String (List Page) :=
  let pageNumber : Int := field.pageNumber.getD 0
  if pageNumber ≥ (pages.length : Int) then Except.ok pages
  else if pageNumber < 0 then
    Except.error "Cannot read properties of undefined (reading getSize)"
  else
    let i := pageNumber.toNat
    let page := pages.getD i (Page.mk 0 0 [])
    match injectField pngOk jpgOk page.width page.height field with
    | Except.error e => Except.error e
    | Except.ok newOps =>
      Except.ok (pages.set i (Page.mk page.width page.height (page.ops ++ newOps)))

/-- The whole field loop of `injectFields`, in payload order; the first
thrown error aborts the loop. -/
def injectLoop (pngOk jpgOk : String → Bool) :
    List Field → List Page → Except String (List Page)
  | [], pages => Except.ok pages
  | field :: rest, pages =>
    match stepField pngOk jpgOk field pages with
    | Except.error e => Except.error e
    | Except.ok pages2 => injectLoop pngOk jpgOk rest pages2

/-- What one run of `injectFields` produces: the serialized output
bytes, both hashes, and the console line emitted by `logAuditEntry`. -/
structure RunOutput where
  outputBytes : List Nat
  originalHash : Nat
  signedHash : Nat
  sinkLog : String
deriving Repr

/-- `injectFields(pdfPath, pdfName, fieldsPayload, outputPath)` from
server.js.  The external collaborators are parameters: `load` is
`PDFDocument.load` (returning the page list, `none` when the bytes are
not a loadable PDF), `save` is `pdfDoc.save`, `hash` is the SHA-256
digest, `sink` is the Mongo audit sink.  Any error thrown inside the
`try` is re-thrown as a "PDF injection failed" error. -/
def injectFields (pngOk jpgOk : String → Bool)
    (load : List Nat → Option (List Page)) (save : List Page → List Nat)
    (hash : List Nat → Nat) (sink : AuditRecord → Except String Unit)
    (existingPdfBytes : List Nat) (pdfName : String)
    (fieldsPayload : List Field) : Except String RunOutput :=
  let originalHash := hash existingPdfBytes
  match load existingPdfBytes with
  | none => Except.error "PDF injection failed: load failed"
  | some pages =>
    match injectLoop pngOk jpgOk fieldsPayload pages with
    | Except.error e => Except.error ("PDF injection failed: " ++ e)
    | Except.ok pagesOut =>
      let pdfBytes := save pagesOut
      let finalHash := hash pdfBytes
      let logLine :=
        logAuditEntry sink (AuditRecord.mk pdfName originalHash finalHash fieldsPayload)
      Except.ok (RunOutput.mk pdfBytes originalHash finalHash logLine)

/-! Concrete instances used by witnesses and counterexamples. -/

/-- The spec's concrete scenario placement: xPct 0.1, yPct 0.1, wPct 0.3, hPct 0.05. -/
def exampleField : Field := Field.mk "signature" (some 0) 0.1 0.1 0.3 0.05 none

/-- An embedder that accepts every payload. -/
def acceptAll : String → Bool := fun _ => true

/-- A one-page A4 document as `PDFDocument.load` would produce it. -/
def onePage : List Page := [Page.mk 595 842 []]

/-- Linear interpolation of two coordinate records, used to state that
the normalizer is (affine-)linear in each percentage input. -/
def affineCombo (s : ℚ) (c1 c2 : Coords) : Coords :=
  Coords.mk (s * c1.x + (1 - s) * c2.x) (s * c1.y + (1 - s) * c2.y)
    (s * c1.width + (1 - s) * c2.width) (s * c1.height + (1 - s) * c2.height)

/-- C1: normalizeCoordinates returns exactly x = xPct * W, width = wPct * W,
height = hPct * H and y = (1 - yPct - hPct) * H on every placement and target
page size; in particular the placement (0.1, 0.1, 0.3, 0.05) on a 595x842 page
normalizes to (59.5, 715.7, 178.5, 42.1). -/
theorem C1_normalize_formulas :
    (∀ (f : Field) (W H : ℚ), normalizeCoordinates f W H =
      Coords.mk (f.xPct * W) ((1 - f.yPct - f.hPct) * H) (f.wPct * W) (f.hPct * H)) ∧
    normalizeCoordinates exampleField 595 842 = Coords.mk 59.5 715.7 178.5 42.1 := by
  refine And.intro (fun f W H => rfl) ?_
  show Coords.mk _ _ _ _ = _
  norm_num [normalizeCoordinates, exampleField]

/-- C2: on any positive target page size, the normalizer satisfies
x / W = xPct and (y + height) / H = 1 - yPct; a placement with yPct = 0 and
hPct = 0 gets y = H, one with yPct = 1 - hPct gets y = 0; and the transform
is linear (affine) in each of the four percentage inputs. -/
theorem C2_normalize_algebra (f : Field) (W H : ℚ) (hW : 0 < W) (hH : 0 < H) :
    (normalizeCoordinates f W H).x / W = f.xPct ∧
    ((normalizeCoordinates f W H).y + (normalizeCoordinates f W H).height) / H
      = 1 - f.yPct ∧
    (f.yPct = 0 → f.hPct = 0 → (normalizeCoordinates f W H).y = H) ∧
    (f.yPct = 1 - f.hPct → (normalizeCoordinates f W H).y = 0) ∧
    (∀ s a b : ℚ, normalizeCoordinates { f with xPct := s * a + (1 - s) * b } W H
      = affineCombo s (normalizeCoordinates { f with xPct := a } W H)
          (normalizeCoordinates { f with xPct := b } W H)) ∧
    (∀ s a b : ℚ, normalizeCoordinates { f with yPct := s * a + (1 - s) * b } W H
      = affineCombo s (normalizeCoordinates { f with yPct := a } W H)
          (normalizeCoordinates { f with yPct := b } W H)) ∧
    (∀ s a b : ℚ, normalizeCoordinates { f with wPct := s * a + (1 - s) * b } W H
      = affineCombo s (normalizeCoordinates { f with wPct := a } W H)
          (normalizeCoordinates { f with wPct := b } W H)) ∧
    (∀ s a b : ℚ, normalizeCoordinates { f with hPct := s * a + (1 - s) * b } W H
      = affineCombo s (normalizeCoordinates { f with hPct := a } W H)
          (normalizeCoordinates { f with hPct := b } W H)) := by
  have hW0 : W ≠ 0 := ne_of_gt hW
  have hH0 : H ≠ 0 := ne_of_gt hH
  refine ⟨?_, ?_, ?_, ?_, ?_, ?_, ?_, ?_⟩
  · simp only [normalizeCoordinates]
    field_simp
  · simp only [normalizeCoordinates]
    field_simp
    ring
  · intro h1 h2
    simp only [normalizeCoordinates, h1, h2]
    ring
  · intro h1
    simp only [normalizeCoordinates, h1]
    ring
  all_goals
    intro s a b
    simp only [normalizeCoordinates, affineCombo, Coords.mk.injEq]
    refine ⟨by ring, by ring, by ring, by ring⟩

/-- A placement at the very top of the page (yPct = 0, hPct = 0). -/
def topField : Field := Field.mk "text" (some 0) 0 0 0.2 0 none

/-- A placement at the very bottom of the page (yPct = 1 - hPct). -/
def bottomField : Field := Field.mk "text" (some 0) 0 0.95 0.2 0.05 none

/-- Witness for C2 at concrete placements on a 595x842 page. -/
theorem C2_normalize_algebra_witness :
    (normalizeCoordinates exampleField 595 842).x / 595 = exampleField.xPct ∧
    ((normalizeCoordinates exampleField 595 842).y
       + (normalizeCoordinates exampleField 595 842).height) / 842
      = 1 - exampleField.yPct ∧
    (normalizeCoordinates topField 595 842).y = 842 ∧
    (normalizeCoordinates bottomField 595 842).y = 0 ∧
    normalizeCoordinates { exampleField with xPct := (1/2) * (1/5) + (1 - 1/2) * (2/5) } 595 842
      = affineCombo (1/2)
          (normalizeCoordinates { exampleField with xPct := 1/5 } 595 842)
          (normalizeCoordinates { exampleField with xPct := 2/5 } 595 842) ∧
    normalizeCoordinates { exampleField with yPct := (1/2) * (1/5) + (1 - 1/2) * (2/5) } 595 842
      = affineCombo (1/2)
          (normalizeCoordinates { exampleField with yPct := 1/5 } 595 842)
          (normalizeCoordinates { exampleField with yPct := 2/5 } 595 842) ∧
    normalizeCoordinates { exampleField with wPct := (1/2) * (1/5) + (1 - 1/2) * (2/5) } 595 842
      = affineCombo (1/2)
          (normalizeCoordinates { exampleField with wPct := 1/5 } 595 842)
          (normalizeCoordinates { exampleField with wPct := 2/5 } 595 842) ∧
    normalizeCoordinates { exampleField with hPct := (1/2) * (1/5) + (1 - 1/2) * (2/5) } 595 842
      = affineCombo (1/2)
          (normalizeCoordinates { exampleField with hPct := 1/5 } 595 842)
          (normalizeCoordinates { exampleField with hPct := 2/5 } 595 842) :=
  ⟨(C2_normalize_algebra exampleField 595 842 (by norm_num) (by norm_num)).1,
   (C2_normalize_algebra exampleField 595 842 (by norm_num) (by norm_num)).2.1,
   (C2_normalize_algebra topField 595 842 (by norm_num) (by norm_num)).2.2.1 rfl rfl,
   (C2_normalize_algebra bottomField 595 842 (by norm_num) (by norm_num)).2.2.2.1
     (by norm_num [bottomField]),
   (C2_normalize_algebra exampleField 595 842 (by norm_num) (by norm_num)).2.2.2.2.1
     (1/2) (1/5) (2/5),
   (C2_normalize_algebra exampleField 595 842 (by norm_num) (by norm_num)).2.2.2.2.2.1
     (1/2) (1/5) (2/5),
   (C2_normalize_algebra exampleField 595 842 (by norm_num) (by norm_num)).2.2.2.2.2.2.1
     (1/2) (1/5) (2/5),
   (C2_normalize_algebra exampleField 595 842 (by norm_num) (by norm_num)).2.2.2.2.2.2.2
     (1/2) (1/5) (2/5)⟩

/-! Helper lemmas about the field loop. -/

/-- Setting an index of a list to the element already there (read with any
default) leaves the list unchanged. -/
theorem list_set_getD_self : ∀ (l : List Page) (i : Nat) (d : Page),
    i < l.length → l.set i (l.getD i d) = l := by
  intro l
  induction l with
  | nil => intro i d h; simp at h
  | cons a t ih =>
    intro i d h
    cases i with
    | zero => simp
    | succ i =>
      have h2 : i < t.length := by simpa using h
      simp only [List.getD_cons_succ, List.set]
      rw [ih i d h2]

/-- One loop step never changes the number of pages. -/
theorem stepField_length {pngOk jpgOk : String → Bool} {f : Field}
    {pages out : List Page} (h : stepField pngOk jpgOk f pages = Except.ok out) :
    out.length = pages.length := by
  simp only [stepField] at h
  split at h
  · cases h; rfl
  · split at h
    · cases h
    · split at h
      · cases h
      · cases h
        simp [List.length_set]

/-- A field whose resolved page number is at or beyond the page count is
skipped: the step returns the pages unchanged. -/
theorem stepField_skip_of_ge {pngOk jpgOk : String → Bool} {f : Field}
    {pages : List Page} (h : (pages.length : Int) ≤ f.pageNumber.getD 0) :
    stepField pngOk jpgOk f pages = Except.ok pages := by
  simp only [stepField]
  rw [if_pos h]

/-- A field with a non-negative resolved page number on which
`injectField` draws nothing leaves the pages unchanged. -/
theorem stepField_noop {pngOk jpgOk : String → Bool} {f : Field}
    (h0 : 0 ≤ f.pageNumber.getD 0)
    (hops : ∀ W H : ℚ, injectField pngOk jpgOk W H f = Except.ok []) :
    ∀ pages : List Page, stepField pngOk jpgOk f pages = Except.ok pages := by
  intro pages
  simp only [stepField]
  split
  · rfl
  · rename_i hge
    rw [if_neg (not_lt.mpr h0), hops]
    have hlt : (f.pageNumber.getD 0).toNat < pages.length := by
      omega
    dsimp only
    rw [List.append_nil]
    exact congrArg Except.ok (list_set_getD_self pages _ _ hlt)

/-- Removing from the middle of the payload a field whose step is a no-op
on every page list of the run's length does not change the loop. -/
theorem injectLoop_middle_noop (pngOk jpgOk : String → Bool) (f : Field) (L : Nat)
    (hf : ∀ pages : List Page, pages.length = L →
      stepField pngOk jpgOk f pages = Except.ok pages) :
    ∀ (fs1 fs2 : List Field) (pages : List Page), pages.length = L →
      injectLoop pngOk jpgOk (fs1 ++ f :: fs2) pages
        = injectLoop pngOk jpgOk (fs1 ++ fs2) pages := by
  intro fs1
  induction fs1 with
  | nil =>
    intro fs2 pages hlen
    simp only [List.nil_append, injectLoop, hf pages hlen]
  | cons g gs ih =>
    intro fs2 pages hlen
    simp only [List.cons_append, injectLoop]
    cases hstep : stepField pngOk jpgOk g pages with
    | error e => rfl
    | ok pages2 =>
      exact ih fs2 pages2 ((stepField_length hstep).trans hlen)

/-- A placement with an unknown type, as could appear in the payload. -/
def checkboxField : Field := Field.mk "checkbox" (some 0) 0.1 0.1 0.3 0.05 (some "on")

/-- C3 counterexample: an unknown-type placement is NOT rejected — the
engine returns success with no draw operations, i.e. it is silently
skipped (the switch in injectField has no default case). -/
theorem C3_counterexample :
    injectField acceptAll acceptAll 595 842 checkboxField = Except.ok [] := rfl

/-- C3 (amended): for every placement whose type is not one of
signature, text, date, image, radio, the engine silently skips the
placement — injectField draws nothing and reports no error. -/
theorem C3_unknown_type_skipped (pngOk jpgOk : String → Bool) (W H : ℚ) (f : Field)
    (h1 : f.ftype ≠ "signature") (h2 : f.ftype ≠ "image") (h3 : f.ftype ≠ "text")
    (h4 : f.ftype ≠ "date") (h5 : f.ftype ≠ "radio") :
    injectField pngOk jpgOk W H f = Except.ok [] := by
  simp [injectField, h1, h2, h3, h4, h5]

/-- Witness for C3 (amended) at the concrete unknown-type placement. -/
theorem C3_unknown_type_skipped_witness :
    checkboxField.ftype ≠ "signature" ∧ checkboxField.ftype ≠ "image" ∧
    checkboxField.ftype ≠ "text" ∧ checkboxField.ftype ≠ "date" ∧
    checkboxField.ftype ≠ "radio" ∧
    injectField acceptAll acceptAll 595 842 checkboxField = Except.ok [] :=
  ⟨by decide, by decide, by decide, by decide, by decide,
   C3_unknown_type_skipped acceptAll acceptAll 595 842 checkboxField
     (by decide) (by decide) (by decide) (by decide) (by decide)⟩

/-- The projection of a run result that ignores the audit console line:
output bytes and the two hashes. -/
def runCore (r : RunOutput) : List Nat × Nat × Nat :=
  (r.outputBytes, r.originalHash, r.signedHash)

/-- A text placement addressing page -1. -/
def negPageField : Field := Field.mk "text" (some (-1)) 0 0 0 0 (some "hi")

/-- `PDFDocument.load` for a fixed one-page A4 document. -/
def loadOnePage : List Nat → Option (List Page) := fun _ => some onePage

/-- A trivial serializer standing in for `pdfDoc.save`. -/
def saveNull : List Page → List Nat := fun _ => []

/-- A trivial stand-in digest function. -/
def lenHash : List Nat → Nat := fun b => b.length

/-- An audit sink whose writes always succeed. -/
def okSink : AuditRecord → Except String Unit := fun _ => Except.ok ()

/-- C4 counterexample: a placement with page index -1 (below zero) is not
skipped — `pages[-1]` is undefined, `page.getSize()` throws, and the whole
run aborts with an error, contradicting the claim for indices below zero. -/
theorem C4_counterexample :
    injectFields acceptAll acceptAll loadOnePage saveNull lenHash okSink
      [] "doc.pdf" [negPageField]
      = Except.error
          "PDF injection failed: Cannot read properties of undefined (reading getSize)" := rfl

/-- C4 (amended): a placement whose resolved page index is at or beyond
the page count is skipped without error — the batch continues and the
output bytes and both hashes are exactly those of the run without that
placement; but a placement with a negative page index is not skipped: it
aborts the whole run with an error. -/
theorem C4_out_of_range_pages (pngOk jpgOk : String → Bool)
    (load : List Nat → Option (List Page)) (save : List Page → List Nat)
    (hash : List Nat → Nat) (sink : AuditRecord → Except String Unit)
    (doc : List Nat) (name : String) (pages : List Page)
    (hload : load doc = some pages) :
    (∀ (fs1 fs2 : List Field) (f : Field),
      (pages.length : Int) ≤ f.pageNumber.getD 0 →
      Except.map runCore
        (injectFields pngOk jpgOk load save hash sink doc name (fs1 ++ f :: fs2))
      = Except.map runCore
          (injectFields pngOk jpgOk load save hash sink doc name (fs1 ++ fs2))) ∧
    (∀ (fs2 : List Field) (f : Field), f.pageNumber.getD 0 < 0 →
      injectFields pngOk jpgOk load save hash sink doc name (f :: fs2)
        = Except.error
            "PDF injection failed: Cannot read properties of undefined (reading getSize)") := by
  constructor
  · intro fs1 fs2 f hge
    simp only [injectFields, hload]
    rw [injectLoop_middle_noop pngOk jpgOk f pages.length
      (fun pages2 hlen => stepField_skip_of_ge (by rw [hlen]; exact hge))
      fs1 fs2 pages rfl]
    cases injectLoop pngOk jpgOk (fs1 ++ fs2) pages with
    | error e => rfl
    | ok out => rfl
  · intro fs2 f hneg
    simp only [injectFields, hload, injectLoop, stepField]
    rw [if_neg (by omega), if_pos hneg]
    rfl

/-- Witness for C4 (amended) on a one-page document: a field addressing
page 7 is dropped without changing the run, and a field addressing page
-1 aborts the run. -/
theorem C4_out_of_range_pages_witness :
    loadOnePage [] = some onePage ∧
    ((onePage.length : Int) ≤ (Field.mk "text" (some 7) 0 0 0 0 (some "hi")).pageNumber.getD 0 ∧
      Except.map runCore
        (injectFields acceptAll acceptAll loadOnePage saveNull lenHash okSink [] "doc.pdf"
          ([] ++ Field.mk "text" (some 7) 0 0 0 0 (some "hi") :: []))
      = Except.map runCore
          (injectFields acceptAll acceptAll loadOnePage saveNull lenHash okSink [] "doc.pdf"
            ([] ++ []))) ∧
    ((negPageField.pageNumber.getD 0 < 0) ∧
      injectFields acceptAll acceptAll loadOnePage saveNull lenHash okSink [] "doc.pdf"
        (negPageField :: [])
        = Except.error
            "PDF injection failed: Cannot read properties of undefined (reading getSize)") :=
  ⟨rfl,
   ⟨by decide,
    (C4_out_of_range_pages acceptAll acceptAll loadOnePage saveNull lenHash okSink
      [] "doc.pdf" onePage rfl).1 [] [] (Field.mk "text" (some 7) 0 0 0 0 (some "hi"))
      (by decide)⟩,
   ⟨by decide,
    (C4_out_of_range_pages acceptAll acceptAll loadOnePage saveNull lenHash okSink
      [] "doc.pdf" onePage rfl).2 [] negPageField (by decide)⟩⟩

/-- A signature/image field whose data URI fails to parse or declares a
mime other than PNG and JPEG draws nothing and raises no error. -/
theorem injectField_image_skip {pngOk jpgOk : String → Bool} {W H : ℚ} {f : Field}
    (hty : f.ftype = "signature" ∨ f.ftype = "image")
    (hparse : parseBase64Image f.value = none ∨
      ∃ d m, parseBase64Image f.value = some (d, m) ∧
        m ≠ "image/png" ∧ m ≠ "image/jpeg" ∧ m ≠ "image/jpg") :
    injectField pngOk jpgOk W H f = Except.ok [] := by
  have hradio : f.ftype ≠ "radio" := by
    rcases hty with h | h <;> rw [h] <;> decide
  simp only [injectField, if_neg hradio, if_pos hty]
  rcases hparse with h | ⟨d, m, h, h1, h2, h3⟩
  · rw [h]
  · rw [h]
    simp [h1, h2, h3]

/-- An embedder that rejects every payload, as pdf-lib does when the
decoded bytes are not a valid image of the declared format. -/
def rejectAll : String → Bool := fun _ => false

/-- A signature placement declaring PNG whose payload decodes to bytes
that are not a valid PNG. -/
def badPngField : Field :=
  Field.mk "signature" (some 0) 0.1 0.1 0.3 0.05 (some "data:image/png;base64,QQ")

/-- C5 counterexample: a signature field declared as PNG whose bytes the
embedder rejects (pdf-lib's embedPng throws) aborts the WHOLE run — the
following text field is lost — contradicting the claim that per-field
image failures only skip that field. -/
theorem C5_counterexample :
    injectFields rejectAll acceptAll loadOnePage saveNull lenHash okSink [] "doc.pdf"
      [badPngField, Field.mk "text" (some 0) 0 0 0 0 (some "hi")]
      = Except.error "PDF injection failed: embedPng failed" := rfl

/-- C5 (amended): a signature/image placement whose value is not a
well-formed base64 data-URI, or whose declared media type is neither PNG
nor JPEG, is skipped and the run continues unchanged; but when the
declared type is PNG/JPEG and the embedder rejects the decoded bytes,
the thrown error aborts the whole run. -/
theorem C5_image_failures (pngOk jpgOk : String → Bool)
    (load : List Nat → Option (List Page)) (save : List Page → List Nat)
    (hash : List Nat → Nat) (sink : AuditRecord → Except String Unit)
    (doc : List Nat) (name : String) (pages : List Page)
    (hload : load doc = some pages) :
    (∀ (fs1 fs2 : List Field) (f : Field),
      (f.ftype = "signature" ∨ f.ftype = "image") →
      0 ≤ f.pageNumber.getD 0 →
      (parseBase64Image f.value = none ∨
        ∃ d m, parseBase64Image f.value = some (d, m) ∧
          m ≠ "image/png" ∧ m ≠ "image/jpeg" ∧ m ≠ "image/jpg") →
      Except.map runCore
        (injectFields pngOk jpgOk load save hash sink doc name (fs1 ++ f :: fs2))
      = Except.map runCore
          (injectFields pngOk jpgOk load save hash sink doc name (fs1 ++ fs2))) ∧
    (∀ (fs2 : List Field) (f : Field) (d : String),
      (f.ftype = "signature" ∨ f.ftype = "image") →
      f.pageNumber.getD 0 = 0 → pages ≠ [] →
      parseBase64Image f.value = some (d, "image/png") → pngOk d = false →
      injectFields pngOk jpgOk load save hash sink doc name (f :: fs2)
        = Except.error "PDF injection failed: embedPng failed") ∧
    (∀ (fs2 : List Field) (f : Field) (d m : String),
      (f.ftype = "signature" ∨ f.ftype = "image") →
      f.pageNumber.getD 0 = 0 → pages ≠ [] →
      parseBase64Image f.value = some (d, m) →
      (m = "image/jpeg" ∨ m = "image/jpg") → jpgOk d = false →
      injectFields pngOk jpgOk load save hash sink doc name (f :: fs2)
        = Except.error "PDF injection failed: embedJpg failed") := by
  refine ⟨?_, ?_, ?_⟩
  · intro fs1 fs2 f hty h0 hparse
    simp only [injectFields, hload]
    rw [injectLoop_middle_noop pngOk jpgOk f pages.length
      (fun pages2 _ => stepField_noop h0
        (fun W H => injectField_image_skip hty hparse) pages2)
      fs1 fs2 pages rfl]
    cases injectLoop pngOk jpgOk (fs1 ++ fs2) pages with
    | error e => rfl
    | ok out => rfl
  · intro fs2 f d hty hpn hne hparse hpng
    have hlen : 0 < pages.length := List.length_pos.mpr hne
    have hradio : f.ftype ≠ "radio" := by
      rcases hty with h | h <;> rw [h] <;> decide
    have hfield : ∀ W H : ℚ, injectField pngOk jpgOk W H f
        = Except.error "embedPng failed" := by
      intro W H
      simp only [injectField, if_neg hradio, if_pos hty, hparse]
      simp [hpng]
    simp only [injectFields, hload, injectLoop, stepField, hpn]
    rw [if_neg (by omega), if_neg (by omega), hfield]
    rfl
  · intro fs2 f d m hty hpn hne hparse hm hjpg
    have hlen : 0 < pages.length := List.length_pos.mpr hne
    have hradio : f.ftype ≠ "radio" := by
      rcases hty with h | h <;> rw [h] <;> decide
    have hfield : ∀ W H : ℚ, injectField pngOk jpgOk W H f
        = Except.error "embedJpg failed" := by
      intro W H
      simp only [injectField, if_neg hradio, if_pos hty, hparse]
      rcases hm with h | h <;> subst h <;> simp [hjpg]
    simp only [injectFields, hload, injectLoop, stepField, hpn]
    rw [if_neg (by omega), if_neg (by omega), hfield]
    rfl

/-- An image placement declaring an unsupported GIF media type. -/
def gifField : Field :=
  Field.mk "image" (some 0) 0 0 0.1 0.1 (some "data:image/gif;base64,AAA")

/-- An image placement declaring JPEG whose payload decodes to bytes
that are not a valid JPEG. -/
def badJpgField : Field :=
  Field.mk "image" (some 0) 0.1 0.1 0.3 0.05 (some "data:image/jpeg;base64,QQ")

/-- Witness for C5 (amended) on a one-page document: a GIF image field
is dropped without changing the run, and a rejected PNG and a rejected
JPEG each abort the run. -/
theorem C5_image_failures_witness :
    loadOnePage [] = some onePage ∧
    ((gifField.ftype = "signature" ∨ gifField.ftype = "image") ∧
      0 ≤ gifField.pageNumber.getD 0 ∧
      Except.map runCore
        (injectFields rejectAll acceptAll loadOnePage saveNull lenHash okSink [] "doc.pdf"
          ([] ++ gifField :: []))
      = Except.map runCore
          (injectFields rejectAll acceptAll loadOnePage saveNull lenHash okSink [] "doc.pdf"
            ([] ++ []))) ∧
    ((badPngField.ftype = "signature" ∨ badPngField.ftype = "image") ∧
      badPngField.pageNumber.getD 0 = 0 ∧ onePage ≠ [] ∧
      parseBase64Image badPngField.value = some ("QQ", "image/png") ∧
      rejectAll "QQ" = false ∧
      injectFields rejectAll acceptAll loadOnePage saveNull lenHash okSink [] "doc.pdf"
        (badPngField :: [])
        = Except.error "PDF injection failed: embedPng failed") ∧
    ((badJpgField.ftype = "signature" ∨ badJpgField.ftype = "image") ∧
      badJpgField.pageNumber.getD 0 = 0 ∧ onePage ≠ [] ∧
      parseBase64Image badJpgField.value = some ("QQ", "image/jpeg") ∧
      ("image/jpeg" = "image/jpeg" ∨ "image/jpeg" = "image/jpg") ∧
      rejectAll "QQ" = false ∧
      injectFields acceptAll rejectAll loadOnePage saveNull lenHash okSink [] "doc.pdf"
        (badJpgField :: [])
        = Except.error "PDF injection failed: embedJpg failed") :=
  ⟨rfl,
   ⟨Or.inr rfl, by decide,
    (C5_image_failures rejectAll acceptAll loadOnePage saveNull lenHash okSink
      [] "doc.pdf" onePage rfl).1 [] [] gifField (Or.inr rfl) (by decide)
      (Or.inr ⟨"AAA", "image/gif", by decide, by decide, by decide, by decide⟩)⟩,
   ⟨Or.inl rfl, by decide, by decide, by decide, rfl,
    (C5_image_failures rejectAll acceptAll loadOnePage saveNull lenHash okSink
      [] "doc.pdf" onePage rfl).2.1 [] badPngField "QQ" (Or.inl rfl) (by decide)
      (by decide) (by decide) rfl⟩,
   ⟨Or.inr rfl, by decide, by decide, by decide, Or.inl rfl, rfl,
    (C5_image_failures acceptAll rejectAll loadOnePage saveNull lenHash okSink
      [] "doc.pdf" onePage rfl).2.2 [] badJpgField "QQ" "image/jpeg" (Or.inr rfl)
      (by decide) (by decide) (by decide) (Or.inl rfl) rfl⟩⟩

/-- C6: a radio placement always draws the bounding outline rectangle at
the normalized box; it additionally draws the filled circular marker
centered at (x + width/2, y + height/2) exactly when the value signals
checked (is truthy); an unchecked radio renders only the outline. -/
theorem C6_radio_rendering (pngOk jpgOk : String → Bool) (W H : ℚ) (f : Field)
    (hf : f.ftype = "radio") :
    (truthy f.value = false →
      injectField pngOk jpgOk W H f = Except.ok
        [DrawOp.rect (normalizeCoordinates f W H).x (normalizeCoordinates f W H).y
          (normalizeCoordinates f W H).width (normalizeCoordinates f W H).height]) ∧
    (truthy f.value = true →
      injectField pngOk jpgOk W H f = Except.ok
        [DrawOp.rect (normalizeCoordinates f W H).x (normalizeCoordinates f W H).y
           (normalizeCoordinates f W H).width (normalizeCoordinates f W H).height,
         DrawOp.circle
           ((normalizeCoordinates f W H).x + (normalizeCoordinates f W H).width / 2)
           ((normalizeCoordinates f W H).y + (normalizeCoordinates f W H).height / 2)
           ((normalizeCoordinates f W H).width / 4)]) := by
  constructor
  · intro hv
    simp [injectField, hf, hv]
  · intro hv
    simp [injectField, hf, hv]

/-- A checked radio placement. -/
def radioChecked : Field := Field.mk "radio" (some 0) 0.1 0.1 0.3 0.05 (some "checked")

/-- An unchecked radio placement (no value collected). -/
def radioUnchecked : Field := Field.mk "radio" (some 0) 0.1 0.1 0.3 0.05 none

/-- Witness for C6 at a checked and an unchecked radio placement on A4. -/
theorem C6_radio_rendering_witness :
    injectField acceptAll acceptAll 595 842 radioUnchecked = Except.ok
      [DrawOp.rect (normalizeCoordinates radioUnchecked 595 842).x
        (normalizeCoordinates radioUnchecked 595 842).y
        (normalizeCoordinates radioUnchecked 595 842).width
        (normalizeCoordinates radioUnchecked 595 842).height] ∧
    injectField acceptAll acceptAll 595 842 radioChecked = Except.ok
      [DrawOp.rect (normalizeCoordinates radioChecked 595 842).x
         (normalizeCoordinates radioChecked 595 842).y
         (normalizeCoordinates radioChecked 595 842).width
         (normalizeCoordinates radioChecked 595 842).height,
       DrawOp.circle
         ((normalizeCoordinates radioChecked 595 842).x
           + (normalizeCoordinates radioChecked 595 842).width / 2)
         ((normalizeCoordinates radioChecked 595 842).y
           + (normalizeCoordinates radioChecked 595 842).height / 2)
         ((normalizeCoordinates radioChecked 595 842).width / 4)] :=
  ⟨(C6_radio_rendering acceptAll acceptAll 595 842 radioUnchecked rfl).1 rfl,
   (C6_radio_rendering acceptAll acceptAll 595 842 radioChecked rfl).2 rfl⟩

/-- A successful run records as originalHash exactly the digest of the
input bytes, before any field is considered. -/
theorem injectFields_originalHash {pngOk jpgOk : String → Bool}
    {load : List Nat → Option (List Page)} {save : List Page → List Nat}
    {hash : List Nat → Nat} {sink : AuditRecord → Except String Unit}
    {doc : List Nat} {name : String} {fields : List Field} {r : RunOutput}
    (h : injectFields pngOk jpgOk load save hash sink doc name fields = Except.ok r) :
    r.originalHash = hash doc := by
  simp only [injectFields] at h
  split at h
  · cases h
  · split at h
    · cases h
    · cases h
      rfl

/-- C7: the run is deterministic — two runs on the same document and the
same placement list produce the same result, in particular the same
signedHash — and originalHash is a function of the input bytes alone:
any two successful runs on the same document bytes have the same
originalHash whatever their placement lists. -/
theorem C7_hash_determinism (pngOk jpgOk : String → Bool)
    (load : List Nat → Option (List Page)) (save : List Page → List Nat)
    (hash : List Nat → Nat) (sink : AuditRecord → Except String Unit)
    (doc : List Nat) (name : String) (fields fields2 : List Field)
    (r r2 : RunOutput)
    (h1 : injectFields pngOk jpgOk load save hash sink doc name fields = Except.ok r)
    (h2 : injectFields pngOk jpgOk load save hash sink doc name fields2 = Except.ok r2) :
    r.originalHash = hash doc ∧ r2.originalHash = r.originalHash ∧
    (fields = fields2 → r = r2 ∧ r.signedHash = r2.signedHash) := by
  refine ⟨injectFields_originalHash h1, ?_, ?_⟩
  · rw [injectFields_originalHash h1, injectFields_originalHash h2]
  · intro heq
    subst heq
    rw [h1] at h2
    cases h2
    exact ⟨rfl, rfl⟩

/-- The run a sample one-field submission produces with the trivial
collaborators. -/
def sampleRun : RunOutput :=
  RunOutput.mk [] 0 0 "[DB] Audit log saved for doc.pdf"

/-- Witness for C7: two concrete runs, one with a text field and one
with no fields, on the same (empty) document bytes. -/
theorem C7_hash_determinism_witness :
    injectFields acceptAll acceptAll loadOnePage saveNull lenHash okSink [] "doc.pdf"
      [Field.mk "text" (some 0) 0 0 0 0 (some "hi")] = Except.ok sampleRun ∧
    injectFields acceptAll acceptAll loadOnePage saveNull lenHash okSink [] "doc.pdf"
      [] = Except.ok sampleRun ∧
    sampleRun.originalHash = lenHash [] ∧
    sampleRun = sampleRun ∧ sampleRun.signedHash = sampleRun.signedHash :=
  ⟨rfl, rfl,
   (C7_hash_determinism acceptAll acceptAll loadOnePage saveNull lenHash okSink
     [] "doc.pdf" [Field.mk "text" (some 0) 0 0 0 0 (some "hi")] [] sampleRun sampleRun
     rfl rfl).1,
   (C7_hash_determinism acceptAll acceptAll loadOnePage saveNull lenHash okSink
     [] "doc.pdf" [] [] sampleRun sampleRun rfl rfl).2.2 rfl⟩

/-- C8: the audit sink never influences the run's outcome: with any sink
(including an always-failing one) the run has the same error/success
status, output bytes and hashes as with an always-succeeding sink, and a
sink failure is only logged by logAuditEntry. -/
theorem C8_sink_isolation (pngOk jpgOk : String → Bool)
    (load : List Nat → Option (List Page)) (save : List Page → List Nat)
    (hash : List Nat → Nat) (sink : AuditRecord → Except String Unit)
    (doc : List Nat) (name : String) (fields : List Field) :
    (Except.map runCore
      (injectFields pngOk jpgOk load save hash sink doc name fields)
    = Except.map runCore
        (injectFields pngOk jpgOk load save hash okSink doc name fields)) ∧
    (∀ (rec : AuditRecord) (e : String), sink rec = Except.error e →
      logAuditEntry sink rec = "[DB] Failed to save audit log: " ++ e) := by
  constructor
  · cases hload : load doc with
    | none => simp [injectFields, hload]
    | some pages =>
      simp only [injectFields, hload]
      cases injectLoop pngOk jpgOk fields pages with
      | error e => rfl
      | ok out => rfl
  · intro rec e he
    simp [logAuditEntry, he]

/-- An audit sink that always fails. -/
def failSink : AuditRecord → Except String Unit := fun _ => Except.error "mongo down"

/-- The audit record of the witness run. -/
def sampleRec : AuditRecord := AuditRecord.mk "doc.pdf" 0 0 [radioChecked]

/-- Witness for C8: a concrete run with the failing sink produces the
same document and hashes as with the succeeding sink, and the failure is
logged. -/
theorem C8_sink_isolation_witness :
    (Except.map runCore
      (injectFields acceptAll acceptAll loadOnePage saveNull lenHash failSink
        [] "doc.pdf" [radioChecked])
    = Except.map runCore
        (injectFields acceptAll acceptAll loadOnePage saveNull lenHash okSink
          [] "doc.pdf" [radioChecked])) ∧
    logAuditEntry failSink sampleRec = "[DB] Failed to save audit log: " ++ "mongo down" :=
  ⟨(C8_sink_isolation acceptAll acceptAll loadOnePage saveNull lenHash failSink
      [] "doc.pdf" [radioChecked]).1,
   (C8_sink_isolation acceptAll acceptAll loadOnePage saveNull lenHash failSink
      [] "doc.pdf" [radioChecked]).2 sampleRec "mongo down" rfl⟩

/-- C9: a placement whose pageNumber is absent (e.g. carried under a
different property name such as pageIndex) or an explicit 0 resolves to
page index 0 via the `pageNumber || 0` default, and on a document with at
least one page its field is injected on the first page. -/
theorem C9_default_page_zero (pngOk jpgOk : String → Bool) (f : Field) (p : Page)
    (rest : List Page) (ops : List DrawOp)
    (hpn : f.pageNumber = none ∨ f.pageNumber = some 0)
    (hinj : injectField pngOk jpgOk p.width p.height f = Except.ok ops) :
    f.pageNumber.getD 0 = 0 ∧
    injectLoop pngOk jpgOk [f] (p :: rest)
      = Except.ok (Page.mk p.width p.height (p.ops ++ ops) :: rest) := by
  have h0 : f.pageNumber.getD 0 = 0 := by
    rcases hpn with h | h <;> rw [h] <;> rfl
  refine ⟨h0, ?_⟩
  simp only [injectLoop, stepField, h0]
  rw [if_neg (by simp only [List.length_cons]; omega), if_neg (by omega)]
  simp only [Int.toNat_zero, List.getD_cons_zero, hinj]
  rfl

/-- A date placement whose page is carried only under a property the
engine does not read, so its pageNumber is absent. -/
def noPageField : Field := Field.mk "date" none 0.2 0.2 0.2 0.05 (some "01/01/2026")

/-- Witness for C9: the pageNumber-less date placement lands on the first
page of a one-page document. -/
theorem C9_default_page_zero_witness :
    noPageField.pageNumber.getD 0 = 0 ∧
    injectLoop acceptAll acceptAll [noPageField] (Page.mk 595 842 [] :: [])
      = Except.ok (Page.mk (Page.mk 595 842 []).width (Page.mk 595 842 []).height
          ((Page.mk 595 842 []).ops ++
            [DrawOp.text "01/01/2026"
              ((normalizeCoordinates noPageField 595 842).x + 2)
              ((normalizeCoordinates noPageField 595 842).y
                + (normalizeCoordinates noPageField 595 842).height - 10 - 2) 10]) :: []) :=
  C9_default_page_zero acceptAll acceptAll noPageField (Page.mk 595 842 []) [] _
    (Or.inl rfl) rfl

/-- C10: an empty-string value is treated exactly like an absent value:
text and date placements draw nothing, a radio placement draws only its
outline, and a signature/image placement draws nothing; likewise a
signature/image value that does not start with data: draws nothing. -/
theorem C10_empty_value_renders_nothing (pngOk jpgOk : String → Bool) (W H : ℚ)
    (f : Field) :
    ((f.value = none ∨ f.value = some "") →
      (((f.ftype = "text" ∨ f.ftype = "date") →
        injectField pngOk jpgOk W H f = Except.ok []) ∧
       (f.ftype = "radio" → injectField pngOk jpgOk W H f = Except.ok
          [DrawOp.rect (normalizeCoordinates f W H).x (normalizeCoordinates f W H).y
            (normalizeCoordinates f W H).width (normalizeCoordinates f W H).height]) ∧
       ((f.ftype = "signature" ∨ f.ftype = "image") →
        injectField pngOk jpgOk W H f = Except.ok []))) ∧
    (∀ s, f.value = some s → jsStartsWith s "data:" = false →
      (f.ftype = "signature" ∨ f.ftype = "image") →
      injectField pngOk jpgOk W H f = Except.ok []) := by
  constructor
  · intro hval
    have htruthy : truthy f.value = false := by
      rcases hval with h | h <;> rw [h] <;> rfl
    refine ⟨?_, ?_, ?_⟩
    · intro hty
      rcases hty with h | h <;> simp [injectField, h, htruthy]
    · intro hty
      simp [injectField, hty, htruthy]
    · intro hty
      refine injectField_image_skip hty (Or.inl ?_)
      rcases hval with h | h <;> rw [h] <;> rfl
  · intro s hval hs hty
    refine injectField_image_skip hty (Or.inl ?_)
    rw [hval]
    by_cases hse : s = "" <;> simp [parseBase64Image, hse, hs]

/-- A text placement whose collected value is the empty string. -/
def emptyText : Field := Field.mk "text" (some 0) 0.2 0.2 0.2 0.05 (some "")

/-- A radio placement whose collected value is the empty string. -/
def emptyRadio : Field := Field.mk "radio" (some 0) 0.2 0.2 0.1 0.1 (some "")

/-- A signature placement whose collected value is the empty string. -/
def emptySig : Field := Field.mk "signature" (some 0) 0.2 0.2 0.3 0.1 (some "")

/-- A signature placement whose value is not a data URI. -/
def nonDataSig : Field := Field.mk "signature" (some 0) 0.2 0.2 0.3 0.1 (some "hello")

/-- Witness for C10 at concrete empty-valued and non-data-URI
placements. -/
theorem C10_empty_value_renders_nothing_witness :
    injectField acceptAll acceptAll 595 842 emptyText = Except.ok [] ∧
    injectField acceptAll acceptAll 595 842 emptyRadio = Except.ok
      [DrawOp.rect (normalizeCoordinates emptyRadio 595 842).x
        (normalizeCoordinates emptyRadio 595 842).y
        (normalizeCoordinates emptyRadio 595 842).width
        (normalizeCoordinates emptyRadio 595 842).height] ∧
    injectField acceptAll acceptAll 595 842 emptySig = Except.ok [] ∧
    injectField acceptAll acceptAll 595 842 nonDataSig = Except.ok [] :=
  ⟨((C10_empty_value_renders_nothing acceptAll acceptAll 595 842 emptyText).1
      (Or.inr rfl)).1 (Or.inl rfl),
   ((C10_empty_value_renders_nothing acceptAll acceptAll 595 842 emptyRadio).1
      (Or.inr rfl)).2.1 rfl,
   ((C10_empty_value_renders_nothing acceptAll acceptAll 595 842 emptySig).1
      (Or.inr rfl)).2.2 (Or.inl rfl),
   (C10_empty_value_renders_nothing acceptAll acceptAll 595 842 nonDataSig).2
     "hello" rfl rfl (Or.inl rfl)⟩

end SigEngine
